import Mathlib

/-!
Shallow embedding of `gorsebuild_twitter.go`, a program that reads recent
tweets from a PostgreSQL database and writes them out as an RSS feed file.

External collaborators (the `database/sql` driver, the PostgreSQL engine,
the config loader and the `gorselib` feed writer) are modelled as oracle
parameters; the code of the repository itself is translated function by
function: `connectToDB`, `getTweets`, `createStatusURL` and `main`
(here `mainRun`).  Machine integers (`int64` tweet IDs, `time.Time`
timestamps) are modelled as `Int`; `uint64 NumTweets` as `Nat`.
-/

namespace Gorsebuild

/-- Model of struct `Tweet` in the source: a tweet pulled from the
database, with fields Nick, Text, Time, TweetID. -/
structure Tweet where
  nick : String
  text : String
  time : Int
  tweetID : Int
deriving Repr, DecidableEq

/-- Model of struct `MyConfig` in the source: the configuration values. -/
structure MyConfig where
  dbUser : String
  dbPass : String
  dbName : String
  dbHost : String
  numTweets : Nat
deriving Repr, DecidableEq

/-- FeedURI is the URI set on the RSS feed channel's link element. -/
def FeedURI : String := "https://leviathan.summercat.com/tweets/"

/-- One row of the `tweet` table, with the four selected columns
`nick, text, time, tweet_id`. -/
structure Row where
  nick : String
  text : String
  time : Int
  tweet_id : Int
deriving Repr, DecidableEq

/-- A database handle as returned by `sql.Open`; the program never looks
inside it, so we keep only the DSN it was opened with. -/
structure DB where
  dsn : String
deriving Repr, DecidableEq

/-- The DSN string built by `connectToDB`:
`fmt.Sprintf("user=%s password=%s dbname=%s host=%s", user, pass, name, host)`. -/
def makeDSN (user pass name host : String) : String :=
  "user=" ++ user ++ " password=" ++ pass ++ " dbname=" ++ name ++
    " host=" ++ host

/-- Translation of `connectToDB`, which opens a new connection to the
database.  `sqlOpen` is the
oracle for the external `sql.Open("postgres", dsn)` call: it either fails
(authentication / network setup failure) or yields a handle.  The source
propagates the error and otherwise returns the handle. -/
def connectToDB (sqlOpen : String → Except String DB)
    (name user pass host : String) : Except String DB :=
  match sqlOpen (makeDSN user pass name host) with
  | .error err => .error err
  | .ok db => .ok db

/-- Scanning one row on success stores the four column values into the
`Tweet` fields, in the order `&tweet.Nick, &tweet.Text, &tweet.Time,
&tweet.TweetID`. -/
def rowToTweet (r : Row) : Tweet :=
  { nick := r.nick, text := r.text, time := r.time, tweetID := r.tweet_id }

/-- Insert a row into a list sorted by `time` descending, keeping it sorted. -/
def insertDesc (r : Row) : List Row → List Row
  | [] => [r]
  | x :: xs => if x.time ≤ r.time then r :: x :: xs else x :: insertDesc r xs

/-- Sort rows by `time` descending (insertion sort), modelling
`ORDER BY time DESC`. -/
def sortDesc : List Row → List Row
  | [] => []
  | r :: rs => insertDesc r (sortDesc rs)

/-- Semantics of the query text in `getTweets`:
`SELECT nick, text, time, tweet_id FROM tweet ORDER BY time DESC LIMIT $1`
executed by the external database engine over the table contents: the rows
ordered by `time` descending, truncated to at most `limit` rows. -/
def runQuery (table : List Row) (limit : Nat) : List Row :=
  (sortDesc table).take limit

/-- The `for rows.Next()` loop of `getTweets`: scan each row in turn,
appending to the accumulated slice (`tweets = append(tweets, tweet)`);
on a scan failure the source returns `nil, err` immediately.
`scanOk` is the oracle for `rows.Scan` succeeding on a given row
(it fails when the column types do not match). -/
def scanLoop (scanOk : Row → Bool) :
    List Row → List Tweet → List Tweet × Option String
  | [], acc => (acc, none)
  | r :: rs, acc =>
    if scanOk r then scanLoop scanOk rs (acc ++ [rowToTweet r])
    else ([], some "Failed to scan row")

/-- The external world `getTweets` interacts with: the `sql.Open` oracle,
whether `db.Query` fails, the contents of the `tweet` table, the row-scan
oracle, and whether `db.Close` fails. -/
structure DBEnv where
  sqlOpen : String → Except String DB
  queryFails : Bool
  table : List Row
  scanOk : Row → Bool
  closeFails : Bool

/-- Result of one run of `getTweets`: the returned slice and error
(the Go function returns `([]Tweet, error)`), plus two observations used
to state resource properties: whether `sql.Open` succeeded (`opened`) and
whether `db.Close` was invoked before returning (`closeCalled`). -/
structure GetTweetsResult where
  tweets : List Tweet
  err : Option String
  opened : Bool
  closeCalled : Bool
deriving Repr, DecidableEq

/-- Translation of `getTweets`, which retrieves tweets from a database,
from the source: connect; on error return `nil, err`; query; on error
return `nil, err` (no close); scan loop, on error return `nil, err`
(no close); `db.Close()`, on error return `nil, err`; else return the
tweets. -/
def getTweets (config : MyConfig) (env : DBEnv) : GetTweetsResult :=
  match connectToDB env.sqlOpen config.dbName config.dbUser config.dbPass
      config.dbHost with
  | .error e => { tweets := [], err := some e, opened := false,
                  closeCalled := false }
  | .ok _db =>
    if env.queryFails then
      { tweets := [], err := some "Query failure", opened := true,
        closeCalled := false }
    else
      match scanLoop env.scanOk (runQuery env.table config.numTweets) [] with
      | (_, some e) =>
        { tweets := [], err := some e, opened := true, closeCalled := false }
      | (ts, none) =>
        if env.closeFails then
          { tweets := [], err := some "Failed to close database connection",
            opened := true, closeCalled := true }
        else
          { tweets := ts, err := none, opened := true, closeCalled := true }

/-- Translation of `createStatusURL`, which builds a URL to the status:
`fmt.Sprintf("https://twitter.com/%s/status/%d", screenName, tweetID)`. -/
def createStatusURL (screenName : String) (tweetID : Int) : String :=
  "https://twitter.com/" ++ screenName ++ "/status/" ++ toString tweetID

/-- One RSS item (`gorselib.RssItem` as used by the source). -/
structure RssItem where
  title : String
  uri : String
  description : String
  publicationDate : Int
deriving Repr, DecidableEq

/-- The RSS feed handed to the serializer (`gorselib.RssFeed` as used by
the source). -/
structure RssFeed where
  name : String
  uri : String
  description : String
  lastUpdateTime : Int
  items : List RssItem
deriving Repr, DecidableEq

/-- The item `main` builds for one tweet:
title `fmt.Sprintf("%s (#%d)", tweet.Nick, tweet.TweetID)`, the status
URL, the raw text as description, the tweet time as publication date. -/
def buildItem (t : Tweet) : RssItem :=
  { title := t.nick ++ " (#" ++ toString t.tweetID ++ ")"
  , uri := createStatusURL t.nick t.tweetID
  , description := t.text
  , publicationDate := t.time }

/-- The `for _, tweet := range tweets` loop of `main`:
`rss.Items = append(rss.Items, item)` in input order. -/
def buildItems (tweets : List Tweet) : List RssItem :=
  tweets.foldl (fun items t => items ++ [buildItem t]) []

/-- The external world `main` interacts with: the two command-line flag
values (a missing flag is the empty-string default), the config loader's
outcome, the database environment, the wall clock (`time.Now()`), and
whether `gorselib.WriteFeedXML` fails. -/
structure MainEnv where
  outputFileArg : String
  configFileArg : String
  configResult : Except String MyConfig
  dbEnv : DBEnv
  now : Int
  writeFails : Bool

/-- Observable outcome of one run of `main`: the process exit code,
whether usage was printed (`flag.PrintDefaults`), whether the config
loader ran, whether `getTweets` ran, whether the serializer was invoked
(`feedGiven` is the feed handed to it), and the file content produced on
a successful write. -/
structure MainResult where
  exitCode : Nat
  usagePrinted : Bool
  configLoaded : Bool
  dbTouched : Bool
  writeCalled : Bool
  feedGiven : Option RssFeed
  fileWritten : Option RssFeed
deriving Repr, DecidableEq

/-- Translation of `main`, step by step: flag check (`len == 0` on either flag
prints defaults and exits 1), config load (error exits 1), `getTweets`
(error exits 1), feed construction with the fixed channel metadata, and
`gorselib.WriteFeedXML` (error exits 1; success is exit 0). -/
def mainRun (env : MainEnv) : MainResult :=
  if env.outputFileArg.length = 0 ∨ env.configFileArg.length = 0 then
    { exitCode := 1, usagePrinted := true, configLoaded := false,
      dbTouched := false, writeCalled := false, feedGiven := none,
      fileWritten := none }
  else
    match env.configResult with
    | .error _ =>
      { exitCode := 1, usagePrinted := false, configLoaded := true,
        dbTouched := false, writeCalled := false, feedGiven := none,
        fileWritten := none }
    | .ok settings =>
      match (getTweets settings env.dbEnv).err with
      | some _ =>
        { exitCode := 1, usagePrinted := false, configLoaded := true,
          dbTouched := true, writeCalled := false, feedGiven := none,
          fileWritten := none }
      | none =>
        let rss : RssFeed :=
          { name := "Twitreader", uri := FeedURI,
            description := "Twitreader tweets", lastUpdateTime := env.now,
            items := buildItems (getTweets settings env.dbEnv).tweets }
        if env.writeFails then
          { exitCode := 1, usagePrinted := false, configLoaded := true,
            dbTouched := true, writeCalled := true, feedGiven := some rss,
            fileWritten := none }
        else
          { exitCode := 0, usagePrinted := false, configLoaded := true,
            dbTouched := true, writeCalled := true, feedGiven := some rss,
            fileWritten := some rss }

/-! ## Helper lemmas -/

/-- connectToDB is exactly the result of the external open call on the DSN
built from its arguments. -/
theorem connectToDB_eq_open (sqlOpen : String → Except String DB)
    (name user pass host : String) :
    connectToDB sqlOpen name user pass host =
      sqlOpen (makeDSN user pass name host) := by
  unfold connectToDB
  cases sqlOpen (makeDSN user pass name host) <;> rfl

/-- Folding the item-append loop over any accumulator appends the mapped
items. -/
theorem foldl_buildItem_eq (tweets : List Tweet) :
    ∀ acc : List RssItem,
      tweets.foldl (fun items t => items ++ [buildItem t]) acc =
        acc ++ tweets.map buildItem := by
  induction tweets with
  | nil => intro acc; simp
  | cons t ts ih => intro acc; simp [ih]

/-- The RSS item loop is a map over the tweets. -/
theorem buildItems_eq_map (tweets : List Tweet) :
    buildItems tweets = tweets.map buildItem := by
  unfold buildItems
  rw [foldl_buildItem_eq]
  simp

/-- Membership in an insertion. -/
theorem mem_insertDesc (a r : Row) (l : List Row) :
    a ∈ insertDesc r l ↔ a = r ∨ a ∈ l := by
  induction l with
  | nil => simp [insertDesc]
  | cons x xs ih =>
    unfold insertDesc
    by_cases hx : x.time ≤ r.time
    · rw [if_pos hx]
      simp only [List.mem_cons]
    · rw [if_neg hx]
      simp only [List.mem_cons, ih]
      tauto

/-- Insertion keeps the list pairwise sorted by time descending. -/
theorem pairwise_insertDesc (r : Row) (l : List Row)
    (h : l.Pairwise (fun a b => b.time ≤ a.time)) :
    (insertDesc r l).Pairwise (fun a b => b.time ≤ a.time) := by
  induction l with
  | nil => simp [insertDesc]
  | cons x xs ih =>
    unfold insertDesc
    by_cases hx : x.time ≤ r.time
    · rw [if_pos hx]
      refine List.Pairwise.cons ?_ h
      intro y hy
      rcases List.mem_cons.mp hy with hyx | hyxs
      · rw [hyx]; exact hx
      · exact le_trans ((List.pairwise_cons.mp h).1 y hyxs) hx
    · rw [if_neg hx]
      refine List.Pairwise.cons ?_ (ih (List.pairwise_cons.mp h).2)
      intro y hy
      rcases (mem_insertDesc y r xs).mp hy with hyr | hyxs
      · rw [hyr]; exact le_of_lt (lt_of_not_le hx)
      · exact (List.pairwise_cons.mp h).1 y hyxs

/-- The model of ORDER BY time DESC is pairwise sorted descending. -/
theorem pairwise_sortDesc (l : List Row) :
    (sortDesc l).Pairwise (fun a b => b.time ≤ a.time) := by
  induction l with
  | nil => simp [sortDesc]
  | cons r rs ih => exact pairwise_insertDesc r (sortDesc rs) ih

/-- A successful scan loop returns the accumulator followed by the scanned
rows, in row order. -/
theorem scanLoop_none_eq (scanOk : Row → Bool) (rows : List Row) :
    ∀ acc : List Tweet, (scanLoop scanOk rows acc).2 = none →
      (scanLoop scanOk rows acc).1 = acc ++ rows.map rowToTweet := by
  induction rows with
  | nil => intro acc _; simp [scanLoop]
  | cons r rs ih =>
    intro acc hnone
    cases hr : scanOk r with
    | true =>
      simp only [scanLoop, hr, if_true] at hnone ⊢
      rw [ih _ hnone]
      simp
    | false =>
      simp [scanLoop, hr] at hnone

/-- A scan failure anywhere in the rows makes the loop report an error. -/
theorem scanLoop_some_of_mem (scanOk : Row → Bool) (rows : List Row) :
    ∀ acc : List Tweet, ∀ r ∈ rows, scanOk r = false →
      ((scanLoop scanOk rows acc).2).isSome = true := by
  induction rows with
  | nil => intro acc r hr; cases hr
  | cons x xs ih =>
    intro acc r hr hf
    cases hx : scanOk x with
    | true =>
      simp only [scanLoop, hx, if_true]
      rcases List.mem_cons.mp hr with h1 | h2
      · rw [h1] at hf; rw [hf] at hx; cases hx
      · exact ih _ r h2 hf
    | false => simp [scanLoop, hx]

/-- Shared sample configuration for concrete runs. -/
def sampleConfig : MyConfig :=
  { dbUser := "u", dbPass := "p", dbName := "d", dbHost := "h", numTweets := 5 }

/-- Shared oracle for an `sql.Open` call that succeeds. -/
def openOk : String → Except String DB := fun dsn => .ok { dsn := dsn }

/-- Shared sample row for concrete runs. -/
def sampleRow : Row := { nick := "alice", text := "hi", time := 3, tweet_id := 42 }

/-- Shared environment in which `db.Query` fails and everything else
succeeds. -/
def envQueryFail : DBEnv :=
  { sqlOpen := openOk, queryFails := true, table := [],
    scanOk := fun _ => true, closeFails := false }

/-! ## Claims -/

/-- C5: for every handle string s and 64-bit post ID n, the synthesized
status link equals "https://twitter.com/" ++ s ++ "/status/" ++ toString n,
and in particular for handle "alice" and ID 42 it equals
"https://twitter.com/alice/status/42". -/
theorem createStatusURL_matches_pattern :
    (∀ (s : String) (n : Int),
      createStatusURL s n =
        "https://twitter.com/" ++ s ++ "/status/" ++ toString n) ∧
    createStatusURL "alice" 42 = "https://twitter.com/alice/status/42" :=
  ⟨fun _ _ => rfl, by decide⟩

/-- C4: the feed-building step is a pure transform whose output item count
equals the input post count, whose items appear in input order (item i is
built from post i), and whose items take their title from the author handle
together with the numeric ID, their description from the raw tweet text,
and their publication date from the post's timestamp. -/
theorem buildItems_preserves_posts (tweets : List Tweet) :
    (buildItems tweets).length = tweets.length ∧
    (∀ i : Nat, (buildItems tweets)[i]? = Option.map buildItem tweets[i]?) ∧
    (∀ t : Tweet,
      (buildItem t).title = t.nick ++ " (#" ++ toString t.tweetID ++ ")" ∧
      (buildItem t).description = t.text ∧
      (buildItem t).publicationDate = t.time) := by
  refine ⟨?_, ?_, fun t => ⟨rfl, rfl, rfl⟩⟩
  · rw [buildItems_eq_map, List.length_map]
  · intro i
    rw [buildItems_eq_map, List.getElem?_map]

/-- C6: connectToDB returns exactly what the external open step yields on
the configured DSN: an error whenever authentication or network setup
fails, and the session handle otherwise. -/
theorem connectToDB_propagates (sqlOpen : String → Except String DB)
    (name user pass host : String) :
    connectToDB sqlOpen name user pass host =
      sqlOpen (makeDSN user pass name host) ∧
    (∀ e, sqlOpen (makeDSN user pass name host) = Except.error e →
      connectToDB sqlOpen name user pass host = Except.error e) ∧
    (∀ db, sqlOpen (makeDSN user pass name host) = Except.ok db →
      connectToDB sqlOpen name user pass host = Except.ok db) := by
  refine ⟨connectToDB_eq_open sqlOpen name user pass host, ?_, ?_⟩
  · intro e he; rw [connectToDB_eq_open, he]
  · intro db hdb; rw [connectToDB_eq_open, hdb]

/-- Witness for C6: a failing open call propagates at a concrete input. -/
theorem connectToDB_propagates_witness :
    connectToDB (fun _ => Except.error "auth failed") "d" "u" "p" "h" =
      Except.error "auth failed" :=
  (connectToDB_propagates (fun _ => Except.error "auth failed")
    "d" "u" "p" "h").2.1 "auth failed" rfl

/-- C1 counterexample: a run of getTweets in which the connection is
opened, the query fails, and the function returns without ever calling
Close — so the session is not closed on every exit path. -/
theorem getTweets_query_failure_leaves_open :
    (getTweets sampleConfig envQueryFail).opened = true ∧
    (getTweets sampleConfig envQueryFail).err = some "Query failure" ∧
    (getTweets sampleConfig envQueryFail).closeCalled = false :=
  ⟨rfl, rfl, rfl⟩

/-- C1 amended: getTweets calls Close exactly on the runs where the open
succeeded, the query succeeded and every row scan succeeded; on the query-
failure and scan-failure exit paths it returns without closing. -/
theorem getTweets_close_iff (config : MyConfig) (env : DBEnv) :
    (getTweets config env).closeCalled = true ↔
      ((∃ db, env.sqlOpen (makeDSN config.dbUser config.dbPass config.dbName
          config.dbHost) = Except.ok db) ∧
       env.queryFails = false ∧
       (scanLoop env.scanOk (runQuery env.table config.numTweets) []).2 =
         none) := by
  unfold getTweets
  rw [connectToDB_eq_open]
  cases hdb : env.sqlOpen (makeDSN config.dbUser config.dbPass config.dbName
      config.dbHost) with
  | error e => simp
  | ok db =>
    cases hq : env.queryFails with
    | true => simp
    | false =>
      cases hsl : scanLoop env.scanOk (runQuery env.table config.numTweets)
          [] with
      | mk ts e =>
        cases e with
        | none =>
          cases hcf : env.closeFails with
          | true => simp
          | false => simp
        | some err => simp

/-- C3: for every configured limit (config.numTweets) and every table
contents, getTweets returns at most that many Tweet records, ordered by
timestamp descending (most recent first). -/
theorem getTweets_limit_sorted (config : MyConfig) (env : DBEnv) :
    (getTweets config env).tweets.length ≤ config.numTweets ∧
    (getTweets config env).tweets.Pairwise (fun a b => b.time ≤ a.time) := by
  unfold getTweets
  rw [connectToDB_eq_open]
  cases hdb : env.sqlOpen (makeDSN config.dbUser config.dbPass config.dbName
      config.dbHost) with
  | error e => simp
  | ok db =>
    cases hq : env.queryFails with
    | true => simp
    | false =>
      cases hsl : scanLoop env.scanOk (runQuery env.table config.numTweets)
          [] with
      | mk ts e =>
        cases e with
        | some err => simp
        | none =>
          have h2 : (scanLoop env.scanOk
              (runQuery env.table config.numTweets) []).2 = none := by
            rw [hsl]
          have h1 := scanLoop_none_eq env.scanOk
            (runQuery env.table config.numTweets) [] h2
          rw [hsl] at h1
          have hts : ts = (runQuery env.table config.numTweets).map
              rowToTweet := by simpa using h1
          cases hcf : env.closeFails with
          | true => simp
          | false =>
            refine ⟨?_, ?_⟩
            · show ts.length ≤ config.numTweets
              rw [hts, List.length_map]
              exact List.length_take_le _ _
            · show ts.Pairwise (fun a b => b.time ≤ a.time)
              rw [hts]
              refine List.pairwise_map.mpr ?_
              exact List.Pairwise.sublist (List.take_sublist _ _)
                (pairwise_sortDesc env.table)

/-- C7: whenever the query fails or some returned row's scan fails,
getTweets reports an error and returns no records at all (the empty
slice, never a prefix of the scanned rows). -/
theorem getTweets_failure_no_partial (config : MyConfig) (env : DBEnv)
    (h : env.queryFails = true ∨
      ∃ r ∈ runQuery env.table config.numTweets, env.scanOk r = false) :
    (getTweets config env).tweets = [] ∧
    (getTweets config env).err.isSome = true := by
  unfold getTweets
  rw [connectToDB_eq_open]
  cases hdb : env.sqlOpen (makeDSN config.dbUser config.dbPass config.dbName
      config.dbHost) with
  | error e => simp
  | ok db =>
    cases hq : env.queryFails with
    | true => simp
    | false =>
      rcases h with h | ⟨r, hr, hf⟩
      · rw [hq] at h; cases h
      · have hs := scanLoop_some_of_mem env.scanOk
          (runQuery env.table config.numTweets) [] r hr hf
        cases hsl : scanLoop env.scanOk (runQuery env.table config.numTweets)
            [] with
        | mk ts e =>
          cases e with
          | none => rw [hsl] at hs; simp at hs
          | some err => simp

/-- Shared environment in which one row's scan fails. -/
def envScanFail : DBEnv :=
  { sqlOpen := openOk, queryFails := false, table := [sampleRow],
    scanOk := fun _ => false, closeFails := false }

/-- Witness for C7: a concrete run with a failing row scan returns the
empty slice and an error. -/
theorem getTweets_failure_no_partial_witness :
    (getTweets sampleConfig envScanFail).tweets = [] ∧
    (getTweets sampleConfig envScanFail).err.isSome = true :=
  getTweets_failure_no_partial sampleConfig envScanFail
    (Or.inr ⟨sampleRow, by decide, rfl⟩)

/-- A string of length zero is the empty string. -/
theorem string_eq_empty_of_length_zero (s : String) (h : s.length = 0) :
    s = "" := by
  cases s with
  | mk data =>
    cases data with
    | nil => rfl
    | cons c cs => simp [String.length] at h

/-- C8: when the output-file flag or the config-file flag is missing
(its empty-string default), main prints usage and exits with status 1
before loading the configuration, touching the database, or writing any
file. -/
theorem mainRun_missing_flag (env : MainEnv)
    (h : env.outputFileArg = "" ∨ env.configFileArg = "") :
    (mainRun env).exitCode = 1 ∧ (mainRun env).usagePrinted = true ∧
    (mainRun env).configLoaded = false ∧ (mainRun env).dbTouched = false ∧
    (mainRun env).writeCalled = false ∧ (mainRun env).fileWritten = none := by
  have hlen : env.outputFileArg.length = 0 ∨ env.configFileArg.length = 0 := by
    rcases h with h | h
    · exact Or.inl (by rw [h]; decide)
    · exact Or.inr (by rw [h]; decide)
  unfold mainRun
  rw [if_pos hlen]
  exact ⟨rfl, rfl, rfl, rfl, rfl, rfl⟩

/-- Shared concrete invocation with the output flag left at its empty
default. -/
def mainEnvNoOutputFlag : MainEnv :=
  { outputFileArg := "", configFileArg := "cfg",
    configResult := Except.error "unread", dbEnv := envQueryFail,
    now := 0, writeFails := false }

/-- Witness for C8 at a concrete invocation with the output flag missing. -/
theorem mainRun_missing_flag_witness :
    (mainRun mainEnvNoOutputFlag).exitCode = 1 ∧
    (mainRun mainEnvNoOutputFlag).usagePrinted = true ∧
    (mainRun mainEnvNoOutputFlag).configLoaded = false ∧
    (mainRun mainEnvNoOutputFlag).dbTouched = false ∧
    (mainRun mainEnvNoOutputFlag).writeCalled = false ∧
    (mainRun mainEnvNoOutputFlag).fileWritten = none :=
  mainRun_missing_flag mainEnvNoOutputFlag (Or.inl rfl)

/-- C2: the serializer is invoked only after configuration loading and
tweet fetching succeed, and whenever the database step fails the program
exits with status 1 with the serializer never invoked and no file
produced. -/
theorem mainRun_write_only_after_success (env : MainEnv) :
    ((mainRun env).writeCalled = true →
      ∃ settings, env.configResult = Except.ok settings ∧
        (getTweets settings env.dbEnv).err = none) ∧
    (∀ settings, env.configResult = Except.ok settings →
      (getTweets settings env.dbEnv).err.isSome = true →
      (mainRun env).writeCalled = false ∧ (mainRun env).feedGiven = none ∧
      (mainRun env).fileWritten = none ∧ (mainRun env).exitCode = 1) := by
  unfold mainRun
  split
  · constructor
    · intro hw; simp at hw
    · intro settings hc hne; exact ⟨rfl, rfl, rfl, rfl⟩
  · split
    · constructor
      · intro hw; simp at hw
      · intro settings hc hne; exact ⟨rfl, rfl, rfl, rfl⟩
    · rename_i settings heq
      split
      · constructor
        · intro hw; simp at hw
        · intro s hc hne; exact ⟨rfl, rfl, rfl, rfl⟩
      · rename_i hnone
        constructor
        · intro _
          exact ⟨settings, heq, hnone⟩
        · intro s hc hne
          rw [heq] at hc
          injection hc with hc
          rw [hc] at hnone
          rw [hnone] at hne
          simp at hne

/-- Shared concrete invocation whose database query fails. -/
def mainEnvQueryFail : MainEnv :=
  { outputFileArg := "out.xml", configFileArg := "cfg",
    configResult := Except.ok sampleConfig, dbEnv := envQueryFail,
    now := 0, writeFails := false }

/-- Witness for C2: a concrete run with a failing query invokes no write
and exits 1. -/
theorem mainRun_write_only_after_success_witness :
    (mainRun mainEnvQueryFail).writeCalled = false ∧
    (mainRun mainEnvQueryFail).feedGiven = none ∧
    (mainRun mainEnvQueryFail).fileWritten = none ∧
    (mainRun mainEnvQueryFail).exitCode = 1 :=
  (mainRun_write_only_after_success mainEnvQueryFail).2 sampleConfig rfl rfl

/-- The zero-item feed with the channel metadata `main` always sets:
name "Twitreader", the package-level FeedURI, description
"Twitreader tweets", and the current time as last update. -/
def emptyFeed (now : Int) : RssFeed :=
  { name := "Twitreader", uri := FeedURI,
    description := "Twitreader tweets", lastUpdateTime := now,
    items := [] }

/-- C9: when getTweets returns the empty list, main still builds the feed
with zero items and the fixed channel metadata (title, link URI,
description, last-update timestamp), hands it to the XML serializer, and
on a successful write the produced file holds that zero-item feed and the
program exits 0. -/
theorem mainRun_empty_feed (env : MainEnv) (settings : MyConfig)
    (h1 : env.outputFileArg ≠ "") (h2 : env.configFileArg ≠ "")
    (hc : env.configResult = Except.ok settings)
    (he : (getTweets settings env.dbEnv).err = none)
    (ht : (getTweets settings env.dbEnv).tweets = []) :
    (mainRun env).feedGiven = some (emptyFeed env.now) ∧
    (mainRun env).writeCalled = true ∧
    (env.writeFails = false →
      (mainRun env).fileWritten = some (emptyFeed env.now) ∧
      (mainRun env).exitCode = 0) := by
  have hlen : ¬(env.outputFileArg.length = 0 ∨
      env.configFileArg.length = 0) := by
    rintro (h | h)
    · exact h1 (string_eq_empty_of_length_zero _ h)
    · exact h2 (string_eq_empty_of_length_zero _ h)
  simp only [mainRun, if_neg hlen, hc, he, ht, buildItems, List.foldl_nil,
    emptyFeed]
  cases hwf : env.writeFails with
  | true => simp
  | false => simp

/-- Shared environment whose table is empty and where every step
succeeds. -/
def envEmptyTable : DBEnv :=
  { sqlOpen := openOk, queryFails := false, table := [],
    scanOk := fun _ => true, closeFails := false }

/-- Shared concrete invocation over the empty table. -/
def mainEnvEmpty : MainEnv :=
  { outputFileArg := "out.xml", configFileArg := "cfg",
    configResult := Except.ok sampleConfig, dbEnv := envEmptyTable,
    now := 7, writeFails := false }

/-- Witness for C9: a concrete run over an empty table writes the
zero-item feed and exits 0. -/
theorem mainRun_empty_feed_witness :
    (mainRun mainEnvEmpty).feedGiven = some (emptyFeed 7) ∧
    (mainRun mainEnvEmpty).writeCalled = true ∧
    (mainRun mainEnvEmpty).fileWritten = some (emptyFeed 7) ∧
    (mainRun mainEnvEmpty).exitCode = 0 := by
  have h := mainRun_empty_feed mainEnvEmpty sampleConfig (by decide)
    (by decide) rfl rfl rfl
  have h3 := h.2.2 rfl
  exact ⟨h.1, h.2.1, h3.1, h3.2⟩

/-- C10 (implicit): when Close fails after every row was scanned
successfully, getTweets discards all fetched tweets, returning the empty
slice together with the close error, and main then exits with status 1
with the XML writer never invoked. -/
theorem getTweets_close_failure (config : MyConfig) (env : DBEnv)
    (hopen : ∃ db, env.sqlOpen (makeDSN config.dbUser config.dbPass
      config.dbName config.dbHost) = Except.ok db)
    (hq : env.queryFails = false)
    (hscan : (scanLoop env.scanOk (runQuery env.table config.numTweets)
      []).2 = none)
    (hclose : env.closeFails = true) :
    (getTweets config env).tweets = [] ∧
    (getTweets config env).err = some "Failed to close database connection" ∧
    (∀ menv : MainEnv, menv.dbEnv = env →
      menv.configResult = Except.ok config →
      ¬(menv.outputFileArg.length = 0 ∨ menv.configFileArg.length = 0) →
      (mainRun menv).exitCode = 1 ∧ (mainRun menv).writeCalled = false ∧
      (mainRun menv).fileWritten = none) := by
  obtain ⟨db, hdb⟩ := hopen
  have hg : getTweets config env =
      { tweets := [], err := some "Failed to close database connection",
        opened := true, closeCalled := true } := by
    unfold getTweets
    rw [connectToDB_eq_open, hdb, hq]
    cases hsl : scanLoop env.scanOk (runQuery env.table config.numTweets)
        [] with
    | mk ts e =>
      cases e with
      | some err => rw [hsl] at hscan; simp at hscan
      | none => simp [hclose]
  refine ⟨by rw [hg], by rw [hg], ?_⟩
  intro menv hdbe hcfg hflags
  simp only [mainRun, if_neg hflags, hcfg, hdbe, hg]
  exact ⟨by trivial, by trivial, by trivial⟩

/-- Shared environment in which only `db.Close` fails. -/
def envCloseFail : DBEnv :=
  { sqlOpen := openOk, queryFails := false, table := [sampleRow],
    scanOk := fun _ => true, closeFails := true }

/-- Shared concrete invocation in which only `db.Close` fails. -/
def mainEnvCloseFail : MainEnv :=
  { outputFileArg := "out.xml", configFileArg := "cfg",
    configResult := Except.ok sampleConfig, dbEnv := envCloseFail,
    now := 0, writeFails := false }

/-- Witness for C10: a concrete run whose Close fails returns no tweets
and exits 1 without writing. -/
theorem getTweets_close_failure_witness :
    (getTweets sampleConfig envCloseFail).tweets = [] ∧
    (getTweets sampleConfig envCloseFail).err =
      some "Failed to close database connection" ∧
    (mainRun mainEnvCloseFail).exitCode = 1 ∧
    (mainRun mainEnvCloseFail).writeCalled = false ∧
    (mainRun mainEnvCloseFail).fileWritten = none := by
  have h := getTweets_close_failure sampleConfig envCloseFail
    ⟨_, rfl⟩ rfl rfl rfl
  have hm := h.2.2 mainEnvCloseFail rfl rfl (by decide)
  exact ⟨h.1, h.2.1, hm.1, hm.2.1, hm.2.2⟩

end Gorsebuild
